import Mathlib

/-!
Verification of the analytical scoring engines of the B2P workforce backend.

The Python services are shallowly embedded: the database session is modelled
as explicit lists of rows, floats as exact rationals (`ℚ`), SQL `NULL` /
Python `None` as `Option`, and the one irrational operation
(`variance ** 0.5` in the equity score) as `Real.sqrt` over `ℝ`.
Side-effecting notification helpers of `trigger_interventions` are modelled
as an action list.  Python falsy-or defaults (`x or d`, `not x`) are
embedded by `pyOrQ` / `pyOrOptQ` / explicit zero tests, since for floats
`x or d` yields `d` exactly when `x` is `None` or `0.0`.
-/

namespace B2P

/-- Python `x or d` for a float `x`: gives `d` when `x == 0.0` (falsy). -/
def pyOrQ (x d : ℚ) : ℚ :=
  if x = 0 then d else x

/-- Python `x or d` for an optional float `x`: gives `d` when `x` is
`None` or `0.0` (both falsy). -/
def pyOrOptQ (x : Option ℚ) (d : ℚ) : ℚ :=
  match x with
  | none => d
  | some v => if v = 0 then d else v

/-- Arithmetic mean of a list of rationals (SQL `AVG`). -/
def mean (xs : List ℚ) : ℚ :=
  xs.sum / (xs.length : ℚ)

/-- Replace the first element satisfying `p` (an in-place ORM row update). -/
def replaceFirst {α : Type} (l : List α) (p : α → Bool) (new : α) : List α :=
  match l with
  | [] => []
  | x :: xs => if p x then new :: xs else x :: replaceFirst xs p new

/-- Stable insertion used by `sortedBy`. -/
def insertBy {α : Type} (le : α → α → Bool) (x : α) : List α → List α
  | [] => [x]
  | y :: ys => if le x y then x :: y :: ys else y :: insertBy le x ys

/-- Stable sort by a boolean comparison (Python stable `sorted`). -/
def sortedBy {α : Type} (le : α → α → Bool) : List α → List α
  | [] => []
  | x :: xs => insertBy le x (sortedBy le xs)

/-! ## Risk engine (`burnout_detection_service.py`) -/

/-- Row of the `burnout_metrics` table.  `sentiment_score` and `risk_score`
are nullable columns; the others are `NOT NULL`.  Dates are day numbers. -/
structure BurnoutMetric where
  employee_id : ℕ
  date : ℤ
  hours_worked : ℚ
  breaks_taken : ℕ
  cognitive_load : ℚ
  social_interactions : ℚ
  task_completion_rate : ℚ
  sentiment_score : Option ℚ
  risk_score : Option ℚ
deriving Repr, DecidableEq

/-- The dict returned by `_get_recent_metrics` when data exists. -/
structure MetricAggregates where
  avg_hours_worked : ℚ
  avg_cognitive_load : ℚ
  avg_social_interactions : ℚ
  avg_task_completion_rate : ℚ
  avg_sentiment_score : ℚ
deriving Repr, DecidableEq

/-- Row filter of the aggregate query in `_get_recent_metrics`. -/
def metricInWindow (emp : ℕ) (cutoff : ℤ) (r : BurnoutMetric) : Bool :=
  decide (r.employee_id = emp ∧ cutoff ≤ r.date)

/-- `_get_recent_metrics`: averages over the lookback window, `None` when no
rows exist.  Each `float(avg or d)` is a Python falsy-or default.  SQL `AVG`
of `sentiment_score` ignores `NULL`s and is itself `NULL` when all are. -/
def get_recent_metrics (db : List BurnoutMetric) (emp : ℕ) (today : ℤ)
    (days : ℕ) : Option MetricAggregates :=
  let cutoff : ℤ := today - days
  let rows := db.filter (metricInWindow emp cutoff)
  if rows.isEmpty then none
  else
    let sentiments := rows.filterMap (fun r => r.sentiment_score)
    some
      { avg_hours_worked := pyOrQ (mean (rows.map (fun r => r.hours_worked))) 8.0
        avg_cognitive_load := pyOrQ (mean (rows.map (fun r => r.cognitive_load))) 0.5
        avg_social_interactions := pyOrQ (mean (rows.map (fun r => r.social_interactions))) 5
        avg_task_completion_rate := pyOrQ (mean (rows.map (fun r => r.task_completion_rate))) 1.0
        avg_sentiment_score :=
          pyOrOptQ (if sentiments.isEmpty then none else some (mean sentiments)) 0.0 }

/-- `_normalize_hours`. -/
def normalize_hours (hours : ℚ) : ℚ :=
  if hours ≤ 8 then 0.0
  else if hours ≤ 9 then 0.3
  else if hours ≤ 10 then 0.6
  else if hours ≤ 11 then 0.8
  else 1.0

/-- `_normalize_isolation`. -/
def normalize_isolation (interactions : ℚ) : ℚ :=
  if 10 ≤ interactions then 0.0
  else if 7 ≤ interactions then 0.2
  else if 5 ≤ interactions then 0.4
  else if 3 ≤ interactions then 0.7
  else 1.0

/-- `_normalize_sentiment`. -/
def normalize_sentiment (sentiment : Option ℚ) : ℚ :=
  match sentiment with
  | none => 0.5
  | some s => (1.0 - s) / 2.0

/-- Weight `self.w_hours`. -/
def w_hours : ℚ := 0.3

/-- Weight `self.w_cognitive`. -/
def w_cognitive : ℚ := 0.25

/-- Weight `self.w_isolation`. -/
def w_isolation : ℚ := 0.2

/-- Weight `self.w_completion`. -/
def w_completion : ℚ := 0.1

/-- Weight `self.w_sentiment`. -/
def w_sentiment : ℚ := 0.15

/-- `calculate_risk_score(employee_id, days)`: weighted factor sum clamped
to `[0, 1]`; `0.0` when the window holds no metric rows. -/
def calculate_risk_score (db : List BurnoutMetric) (emp : ℕ) (today : ℤ)
    (days : ℕ) : ℚ :=
  match get_recent_metrics db emp today days with
  | none => 0.0
  | some m =>
    let hours_score := normalize_hours m.avg_hours_worked
    let cognitive_score := m.avg_cognitive_load
    let isolation_score := normalize_isolation m.avg_social_interactions
    let completion_score := 1.0 - m.avg_task_completion_rate
    let sentiment_score := normalize_sentiment (some m.avg_sentiment_score)
    let risk := w_hours * hours_score + w_cognitive * cognitive_score +
      w_isolation * isolation_score + w_completion * completion_score +
      w_sentiment * sentiment_score
    min (max risk 0.0) 1.0

/-- The side-effecting helpers called by `trigger_interventions`, reified. -/
inductive InterventionAction where
  | blockNewTasks
  | alertManager (severity : String)
  | suggestDelegation
  | insertMicroBreaks
deriving Repr, DecidableEq

/-- `trigger_interventions(employee_id)`: an `elif` chain on the current
risk score; each branch fires the listed helper calls, in order. -/
def trigger_interventions (db : List BurnoutMetric) (emp : ℕ) (today : ℤ) :
    List InterventionAction :=
  let risk_score := calculate_risk_score db emp today 7
  if 0.9 ≤ risk_score then
    [InterventionAction.blockNewTasks, InterventionAction.alertManager "critical"]
  else if 0.8 ≤ risk_score then
    [InterventionAction.alertManager "high", InterventionAction.suggestDelegation]
  else if 0.7 ≤ risk_score then
    [InterventionAction.suggestDelegation]
  else if 0.5 ≤ risk_score then
    [InterventionAction.insertMicroBreaks]
  else []

/-- Row predicate `(employee_id, date)` used by `update_daily_metric`. -/
def metricKey (emp : ℕ) (d : ℤ) (r : BurnoutMetric) : Bool :=
  decide (r.employee_id = emp ∧ r.date = d)

/-- The freshly created metric row of `update_daily_metric`: the columns
not passed (`cognitive_load`, `social_interactions`, `task_completion_rate`)
take their table defaults, and `risk_score` is not yet set. -/
def freshMetric (emp : ℕ) (d : ℤ) (hours_worked : ℚ) (breaks_taken : ℕ)
    (sentiment : Option ℚ) : BurnoutMetric :=
  { employee_id := emp
    date := d
    hours_worked := hours_worked
    breaks_taken := breaks_taken
    cognitive_load := 0.5
    social_interactions := 0
    task_completion_rate := 1.0
    sentiment_score := sentiment
    risk_score := none }

/-- `update_daily_metric`: upsert of the `(employee, date)` row, then
recompute and store `risk_score` over the default 7-day window.  A created
row takes the column defaults `cognitive_load=0.5`, `social_interactions=0`,
`task_completion_rate=1.0`.  Returns the new table and the stored row. -/
def update_daily_metric (db : List BurnoutMetric) (emp : ℕ) (hours_worked : ℚ)
    (breaks_taken : ℕ) (sentiment : Option ℚ) (metric_date : Option ℤ)
    (today : ℤ) : List BurnoutMetric × BurnoutMetric :=
  let d := metric_date.getD today
  match db.find? (metricKey emp d) with
  | some existing =>
    let updated : BurnoutMetric :=
      { existing with
        hours_worked := hours_worked
        breaks_taken := breaks_taken
        sentiment_score :=
          match sentiment with
          | some s => some s
          | none => existing.sentiment_score }
    let db1 := replaceFirst db (metricKey emp d) updated
    let risk := calculate_risk_score db1 emp today 7
    let final := { updated with risk_score := some risk }
    (replaceFirst db1 (metricKey emp d) final, final)
  | none =>
    let created := freshMetric emp d hours_worked breaks_taken sentiment
    let db1 := db ++ [created]
    let risk := calculate_risk_score db1 emp today 7
    let final := { created with risk_score := some risk }
    (replaceFirst db1 (metricKey emp d) final, final)

/-! ## Priority engine (`task_prioritization_service.py`) -/

/-- `_normalize_effort`: Python `if not estimated_effort` treats both
`None` and `0.0` as "no estimate". -/
def normalize_effort : Option ℚ → ℚ
  | none => 0.5
  | some e =>
    if e = 0 then 0.5
    else if 2.0 ≤ e ∧ e ≤ 4.0 then 1.0
    else if e < 2.0 then 0.7 + (e / 2.0) * 0.3
    else if e ≤ 8.0 then 1.0 - ((e - 4.0) / 4.0) * 0.3
    else 0.4

/-! ## Equity engine (`workload_balancing_service.py`) -/

/-- Task status enumeration. -/
inductive TaskStatus where
  | pending
  | in_progress
  | completed
  | blocked
  | cancelled
deriving Repr, DecidableEq

/-- Row of the `tasks` table (fields used by the equity engine). -/
structure Task where
  id : ℕ
  title : String
  assigned_to : Option ℕ
  urgency : ℕ
  deadline : Option ℤ
  estimated_effort : Option ℚ
  status : TaskStatus
  priority_score : Option ℚ
  dependencies : List ℕ
deriving Repr, DecidableEq

/-- Row of the `employees` table (fields used by the equity engine). -/
structure Employee where
  id : ℕ
  name : String
  team_id : Option ℕ
deriving Repr, DecidableEq

/-- Row of the `teams` table. -/
structure Team where
  id : ℕ
  name : String
deriving Repr, DecidableEq

/-- The store visible to the equity engine. -/
structure WorkloadDB where
  teams : List Team
  employees : List Employee
  tasks : List Task
deriving Repr, DecidableEq

/-- The dict built by `_calculate_employee_workload`. -/
structure Workload where
  employee_id : ℕ
  employee_name : String
  cumulative_load : ℚ
  critical_score : ℚ
  global_score : ℚ
  active_tasks_count : ℕ
  high_priority_tasks_count : ℕ
deriving Repr, DecidableEq

/-- `self.alpha`: cumulative-load weight. -/
def alpha : ℚ := 0.6

/-- `self.beta`: critical-tasks weight. -/
def beta : ℚ := 0.4

/-- Active (pending or in-progress) tasks assigned to an employee. -/
def activeTasks (db : WorkloadDB) (emp : ℕ) : List Task :=
  db.tasks.filter (fun t =>
    decide (t.assigned_to = some emp ∧
      (t.status = TaskStatus.pending ∨ t.status = TaskStatus.in_progress)))

/-- `_calculate_employee_workload`.  The employee name is looked up from the
store (defaulting to the empty string for a dangling reference; the engine
only ever calls this for employees read from the store). -/
def calculate_employee_workload (db : WorkloadDB) (emp : ℕ) : Workload :=
  let name := ((db.employees.find? (fun e => decide (e.id = emp))).map
    (fun e => e.name)).getD ""
  let tasks := activeTasks db emp
  let cumulative_load :=
    (tasks.map (fun t => pyOrOptQ t.estimated_effort 2.0 * pyOrOptQ t.priority_score 0.5)).sum
  let critical_score :=
    ((tasks.filter (fun t => decide (4 ≤ t.urgency))).map
      (fun t => pyOrOptQ t.priority_score 0.5)).sum
  let high_priority_count :=
    (tasks.filter (fun t => decide (0.7 ≤ pyOrOptQ t.priority_score 0))).length
  let global_score := alpha * cumulative_load + beta * critical_score
  { employee_id := emp
    employee_name := name
    cumulative_load := cumulative_load
    critical_score := critical_score
    global_score := global_score
    active_tasks_count := tasks.length
    high_priority_tasks_count := high_priority_count }

/-- Descending order on `global_score` (`sorted(..., reverse=True)`). -/
def workloadDesc (a b : Workload) : Bool :=
  decide (b.global_score ≤ a.global_score)

/-- `_calculate_equity_score`: `max(0, 1 - std_dev / mean)` with population
standard deviation; `1.0` for an empty list or a zero mean. -/
noncomputable def calculate_equity_score (workloads : List Workload) : ℝ :=
  if workloads = [] then 1
  else
    let scores := workloads.map (fun w => w.global_score)
    let mean_score : ℚ := scores.sum / (scores.length : ℚ)
    if mean_score = 0 then 1
    else
      let variance : ℚ := (scores.map (fun s => (s - mean_score) ^ 2)).sum / (scores.length : ℚ)
      let std_dev : ℝ := Real.sqrt (variance : ℝ)
      let cv : ℝ := if 0 < mean_score then std_dev / (mean_score : ℝ) else 0
      max 0 (1 - cv)

/-- `_generate_balancing_recommendations`. -/
def generate_balancing_recommendations (workloads : List Workload) : List String :=
  if workloads = [] then ["No team members to analyze"]
  else
    match sortedBy workloadDesc workloads with
    | [] => []
    | overloaded :: rest =>
      let underloaded := (overloaded :: rest).getLast (List.cons_ne_nil _ _)
      let imbalance_ratio := overloaded.global_score / (underloaded.global_score + 0.1)
      let oname := overloaded.employee_name
      let uname := underloaded.employee_name
      let critical_recs :=
        if 2.0 < imbalance_ratio then
          ["CRITICAL: " ++ oname ++ " is significantly overloaded. " ++
            "Consider redistributing tasks to " ++ uname ++ "."]
        else []
      let imbalance_recs :=
        if 1.5 < imbalance_ratio then
          ["Workload imbalance detected. Review task distribution between " ++
            oname ++ " and " ++ uname ++ "."]
        else []
      let high_priority_recs := workloads.filterMap (fun w =>
        if 5 < w.high_priority_tasks_count then
          some (w.employee_name ++ " has " ++ toString w.high_priority_tasks_count ++
            " high-priority tasks. Consider delegating lower-priority items.")
        else none)
      let total_load := (workloads.map (fun w => w.global_score)).sum
      let avg_load := total_load / (workloads.length : ℚ)
      let capacity_recs :=
        if 20 < avg_load then
          ["Team appears to be operating at high capacity. Consider extending deadlines or requesting additional resources."]
        else []
      let recs := critical_recs ++ imbalance_recs ++ high_priority_recs ++ capacity_recs
      if recs = [] then ["Workload is well-balanced across the team. Keep monitoring."]
      else recs

/-- One member entry of the `TeamEquityResponse`. -/
structure MemberWorkloadDetail where
  employee_id : String
  employee_name : String
  cumulative_load : ℚ
  critical_score : ℚ
  global_score : ℚ
  active_tasks : ℕ
deriving Repr, DecidableEq

/-- `TeamEquityResponse` schema. -/
structure TeamEquityResponse where
  team_id : ℕ
  team_name : String
  equity_score : ℝ
  member_workloads : List MemberWorkloadDetail
  recommendations : List String

/-- `calculate_team_equity(team_id)`; a missing team raises `ValueError`. -/
noncomputable def calculate_team_equity (db : WorkloadDB) (team_id : ℕ) :
    Except String TeamEquityResponse :=
  match db.teams.find? (fun t => decide (t.id = team_id)) with
  | none => Except.error "Team not found"
  | some team =>
    let employees := db.employees.filter (fun e => decide (e.team_id = some team_id))
    if employees = [] then
      Except.ok
        { team_id := team_id
          team_name := team.name
          equity_score := 1.0
          member_workloads := []
          recommendations := ["No team members found"] }
    else
      let workloads := employees.map (fun e => calculate_employee_workload db e.id)
      let equity_score := calculate_equity_score workloads
      let recommendations := generate_balancing_recommendations workloads
      let member_workloads := workloads.map (fun w =>
        { employee_id := toString w.employee_id
          employee_name := w.employee_name
          cumulative_load := w.cumulative_load
          critical_score := w.critical_score
          global_score := w.global_score
          active_tasks := w.active_tasks_count : MemberWorkloadDetail })
      Except.ok
        { team_id := team_id
          team_name := team.name
          equity_score := equity_score
          member_workloads := member_workloads
          recommendations := recommendations }

/-- SQL `ORDER BY deadline DESC` (Postgres `NULLS FIRST`): `a` comes no
later than `b`. -/
def deadlineDescLe (a b : Option ℤ) : Bool :=
  match a, b with
  | none, _ => true
  | some _, none => false
  | some x, some y => decide (y ≤ x)

/-- SQL `ORDER BY priority_score ASC, deadline DESC` (Postgres default
`NULLS LAST` for ascending): `a` comes no later than `b`. -/
def transferLe (a b : Task) : Bool :=
  match a.priority_score, b.priority_score with
  | none, none => deadlineDescLe a.deadline b.deadline
  | none, some _ => false
  | some _, none => true
  | some x, some y =>
    if x = y then deadlineDescLe a.deadline b.deadline else decide (x < y)

/-- `_find_transferable_task`: first pending, dependency-free task of the
overloaded employee in the order above. -/
def find_transferable_task (db : WorkloadDB) (from_emp : ℕ) : Option Task :=
  (sortedBy transferLe (db.tasks.filter (fun t =>
    decide (t.assigned_to = some from_emp ∧ t.status = TaskStatus.pending ∧
      t.dependencies = [])))).head?

/-- A suggested transfer produced by `redistribute_tasks`. -/
structure TransferSuggestion where
  task_id : ℕ
  task_title : String
  from_employee : String
  to_employee : String
  priority_score : Option ℚ
  estimated_effort : Option ℚ
deriving Repr, DecidableEq

/-- `transfer.assigned_to = ...; db.commit()`: reassign a task in place. -/
def reassign (db : WorkloadDB) (task_id : ℕ) (new_emp : ℕ) : WorkloadDB :=
  { db with tasks := db.tasks.map (fun t =>
      if t.id = task_id then { t with assigned_to := some new_emp } else t) }

/-- The `while True` body of `redistribute_tasks`.  Termination rests solely
on the `len(suggestions) >= 10` break: each pass appends exactly one
suggestion, so `10 - suggestions.length` strictly decreases. -/
def redistributeLoop (db : WorkloadDB) (emps : List Employee) (auto_assign : Bool)
    (suggestions : List TransferSuggestion) : List TransferSuggestion :=
  let workloads := sortedBy workloadDesc
    (emps.map (fun e => calculate_employee_workload db e.id))
  match workloads with
  | [] => suggestions
  | overloaded :: rest =>
    let underloaded := (overloaded :: rest).getLast (List.cons_ne_nil _ _)
    if overloaded.global_score < 1.5 * underloaded.global_score then suggestions
    else
      match find_transferable_task db overloaded.employee_id with
      | none => suggestions
      | some transfer =>
        let s : TransferSuggestion :=
          { task_id := transfer.id
            task_title := transfer.title
            from_employee := overloaded.employee_name
            to_employee := underloaded.employee_name
            priority_score := transfer.priority_score
            estimated_effort := transfer.estimated_effort }
        let db2 := if auto_assign then reassign db transfer.id underloaded.employee_id else db
        if h10 : 10 ≤ (suggestions ++ [s]).length then suggestions ++ [s]
        else redistributeLoop db2 emps auto_assign (suggestions ++ [s])
termination_by 10 - suggestions.length
decreasing_by
  simp only [List.length_append, List.length_cons, List.length_nil, not_le] at h10 ⊢
  omega

/-- `redistribute_tasks(team_id, auto_assign)`. -/
def redistribute_tasks (db : WorkloadDB) (team_id : ℕ) (auto_assign : Bool) :
    Except String (List TransferSuggestion) :=
  match db.teams.find? (fun t => decide (t.id = team_id)) with
  | none => Except.error "Team not found"
  | some _ =>
    let employees := db.employees.filter (fun e => decide (e.team_id = some team_id))
    if employees.length < 2 then Except.ok []
    else Except.ok (redistributeLoop db employees auto_assign [])

/-- Number of suggestions carried by a `redistribute_tasks` result. -/
def exceptLen {ε α : Type} : Except ε (List α) → ℕ
  | Except.error _ => 0
  | Except.ok l => l.length

/-- Equity score carried by a `calculate_team_equity` result. -/
def equityOf : Except String TeamEquityResponse → Option ℝ
  | Except.error _ => none
  | Except.ok r => some r.equity_score

/-- Recommendation list carried by a `calculate_team_equity` result. -/
def recsOf : Except String TeamEquityResponse → Option (List String)
  | Except.error _ => none
  | Except.ok r => some r.recommendations

/-! ## Recognition engine (`recognition_service.py`) -/

/-- Achievement type enumeration. -/
inductive AchievementType where
  | deliverable
  | innovation
  | client_feedback
  | collaboration
  | learning
deriving Repr, DecidableEq

/-- Row of the `achievements` table. -/
structure Achievement where
  id : ℕ
  employee_id : ℕ
  type : AchievementType
  description : String
  impact_score : ℚ
  recognized_by_manager : Bool
  recognition_note : Option String
  related_task_id : Option ℕ
deriving Repr, DecidableEq

/-- `track_achievement`: inserts a new achievement row; the recognition
columns take their defaults (`False`, `NULL`).  Row ids are generated by the
store, modelled by the extra `new_id` argument. -/
def track_achievement (db : List Achievement) (new_id : ℕ) (emp : ℕ)
    (ty : AchievementType) (description : String) (impact_score : ℚ)
    (related_task_id : Option ℕ) : List Achievement × Achievement :=
  let a : Achievement :=
    { id := new_id
      employee_id := emp
      type := ty
      description := description
      impact_score := impact_score
      recognized_by_manager := false
      recognition_note := none
      related_task_id := related_task_id }
  (db ++ [a], a)

/-- `manager_recognition(achievement_id, recognition_note)`: `ValueError`
when the row is missing, otherwise set the flag and store the note. -/
def manager_recognition (db : List Achievement) (aid : ℕ) (note : String) :
    Except String (List Achievement × Achievement) :=
  match db.find? (fun a => decide (a.id = aid)) with
  | none => Except.error "Achievement not found"
  | some a =>
    let updated := { a with recognized_by_manager := true, recognition_note := some note }
    Except.ok (replaceFirst db (fun x => decide (x.id = aid)) updated, updated)

/-! ## Concrete stores used as counterexamples and witnesses -/

/-- One metric row putting the 7-day risk score at `0.99`. -/
def db1 : List BurnoutMetric :=
  [{ employee_id := 0, date := 0, hours_worked := 12, breaks_taken := 0,
     cognitive_load := 1, social_interactions := 1, task_completion_rate := 0.1,
     sentiment_score := some (-1), risk_score := none }]

/-- One metric row whose cognitive-load and completion-rate means are `0`. -/
def db2 : List BurnoutMetric :=
  [{ employee_id := 0, date := 0, hours_worked := 10, breaks_taken := 0,
     cognitive_load := 0, social_interactions := 5, task_completion_rate := 0,
     sentiment_score := some 0, risk_score := none }]

/-- A store whose only metric row belongs to a different employee. -/
def db3 : List BurnoutMetric :=
  [{ employee_id := 1, date := 0, hours_worked := 9, breaks_taken := 2,
     cognitive_load := 0.5, social_interactions := 4, task_completion_rate := 0.8,
     sentiment_score := none, risk_score := none }]

/-- A two-member team with no tasks: both global scores are `0`. -/
def wdb7 : WorkloadDB :=
  { teams := [{ id := 0, name := "T" }],
    employees := [{ id := 0, name := "A", team_id := some 0 },
                  { id := 1, name := "B", team_id := some 0 }],
    tasks := [] }

/-- A store whose team `0` exists but has no members. -/
def wdb8 : WorkloadDB :=
  { teams := [{ id := 0, name := "T" }],
    employees := [{ id := 0, name := "A", team_id := some 1 }],
    tasks := [] }

/-- A store with a single unrecognized achievement. -/
def achDb : List Achievement :=
  [{ id := 0, employee_id := 0, type := AchievementType.deliverable,
     description := "d", impact_score := 0.5, recognized_by_manager := false,
     recognition_note := none, related_task_id := none }]

/-! ## Claim theorems -/

/-- C3: for every employee and lookback window containing no metric rows,
`calculate_risk_score` returns exactly `0.0` (and, being a total function of
the store, raises no error). -/
theorem risk_score_no_metrics_zero (db : List BurnoutMetric) (emp : ℕ)
    (today : ℤ) (days : ℕ)
    (h : ∀ r ∈ db, ¬(r.employee_id = emp ∧ today - (days : ℤ) ≤ r.date)) :
    calculate_risk_score db emp today days = 0 := by
  have hfilter : db.filter (metricInWindow emp (today - (days : ℤ))) = [] := by
    rw [List.filter_eq_nil_iff]
    intro a ha
    simpa [metricInWindow] using h a ha
  norm_num [calculate_risk_score, get_recent_metrics, hfilter]

/-- C3 witness: a store whose only row belongs to another employee yields
risk `0` for employee `0`. -/
theorem risk_score_no_metrics_zero_witness :
    (∀ r ∈ db3, ¬(r.employee_id = 0 ∧ (0 : ℤ) - (7 : ℕ) ≤ r.date)) ∧
    calculate_risk_score db3 0 0 7 = 0 :=
  ⟨by decide, risk_score_no_metrics_zero db3 0 0 7 (by decide)⟩

/-- C9: the risk score is clamped, so it lies in `[0, 1]` for every store,
employee and window, however extreme the stored feature values are. -/
theorem risk_score_in_unit_interval (db : List BurnoutMetric) (emp : ℕ)
    (today : ℤ) (days : ℕ) :
    0 ≤ calculate_risk_score db emp today days ∧
      calculate_risk_score db emp today days ≤ 1 := by
  unfold calculate_risk_score
  cases get_recent_metrics db emp today days with
  | none => norm_num
  | some m =>
    constructor
    · exact le_min (le_trans (by norm_num) (le_max_right _ _)) (by norm_num)
    · exact le_trans (min_le_right _ _) (by norm_num)

/-- Evaluation of the aggregate dict on the all-zero-means store. -/
theorem metrics_db2_eval :
    get_recent_metrics db2 0 0 7 =
      some { avg_hours_worked := 10, avg_cognitive_load := 0.5,
             avg_social_interactions := 5, avg_task_completion_rate := 1,
             avg_sentiment_score := 0 } := by
  norm_num [get_recent_metrics, db2, mean, metricInWindow, pyOrQ, pyOrOptQ,
    List.filter, List.filterMap_cons, List.filterMap_nil]

/-- C2 (code bug): with a metric row present, a cognitive-load mean of `0.0`
is replaced by the falsy-or default `0.5` instead of being used directly, and
a completion-rate mean of `0.0` is replaced by `1.0`, making the deficit `0`
instead of `1`.  The resulting risk is `0.46` where the documented formulas
give `0.435`. -/
theorem risk_factors_zero_mean_defaulted :
    (∀ r ∈ db2, r.cognitive_load = 0 ∧ r.task_completion_rate = 0) ∧
    (get_recent_metrics db2 0 0 7).map (fun m => m.avg_cognitive_load) = some 0.5 ∧
    (get_recent_metrics db2 0 0 7).map (fun m => m.avg_task_completion_rate) = some 1 ∧
    calculate_risk_score db2 0 0 7 = 0.46 := by
  refine ⟨?_, ?_, ?_, ?_⟩
  · simp [db2]
  · simp [metrics_db2_eval]
  · simp [metrics_db2_eval]
  · norm_num [calculate_risk_score, metrics_db2_eval, normalize_hours,
      normalize_isolation, normalize_sentiment, w_hours, w_cognitive,
      w_isolation, w_completion, w_sentiment]

/-- Evaluation of the risk score on the overloaded store `db1`. -/
theorem risk_db1_eval : calculate_risk_score db1 0 0 7 = 0.99 := by
  norm_num [calculate_risk_score, get_recent_metrics, db1, mean, metricInWindow,
    pyOrQ, pyOrOptQ, normalize_hours, normalize_isolation, normalize_sentiment,
    w_hours, w_cognitive, w_isolation, w_completion, w_sentiment,
    List.filter, List.filterMap_cons, List.filterMap_nil]

/-- C1 counterexample: a store with risk score `0.99 ≥ 0.9` where
`trigger_interventions` fires neither the `≥ 0.8` actions (high alert,
delegation) nor the `≥ 0.5` action (micro-breaks): the bands do not
cascade. -/
theorem trigger_interventions_no_cascade_cex :
    0.9 ≤ calculate_risk_score db1 0 0 7 ∧
    InterventionAction.suggestDelegation ∉ trigger_interventions db1 0 0 ∧
    InterventionAction.insertMicroBreaks ∉ trigger_interventions db1 0 0 ∧
    InterventionAction.alertManager "high" ∉ trigger_interventions db1 0 0 := by
  refine ⟨?_, ?_, ?_, ?_⟩ <;>
    norm_num [trigger_interventions, risk_db1_eval] <;> decide

/-- C1 (amended): `trigger_interventions` is an `elif` chain, hence mutually
exclusive — exactly the actions of the highest band at or below the risk
score fire: `≥0.9` blocks new tasks and alerts the manager (critical);
otherwise `≥0.8` alerts the manager (high) and suggests delegation;
otherwise `≥0.7` suggests delegation only; otherwise `≥0.5` suggests
micro-breaks; otherwise nothing. -/
theorem trigger_interventions_mutually_exclusive (db : List BurnoutMetric)
    (emp : ℕ) (today : ℤ) :
    (0.9 ≤ calculate_risk_score db emp today 7 →
      trigger_interventions db emp today =
        [InterventionAction.blockNewTasks, InterventionAction.alertManager "critical"]) ∧
    (0.8 ≤ calculate_risk_score db emp today 7 →
      calculate_risk_score db emp today 7 < 0.9 →
      trigger_interventions db emp today =
        [InterventionAction.alertManager "high", InterventionAction.suggestDelegation]) ∧
    (0.7 ≤ calculate_risk_score db emp today 7 →
      calculate_risk_score db emp today 7 < 0.8 →
      trigger_interventions db emp today = [InterventionAction.suggestDelegation]) ∧
    (0.5 ≤ calculate_risk_score db emp today 7 →
      calculate_risk_score db emp today 7 < 0.7 →
      trigger_interventions db emp today = [InterventionAction.insertMicroBreaks]) ∧
    (calculate_risk_score db emp today 7 < 0.5 →
      trigger_interventions db emp today = []) := by
  simp only [trigger_interventions]
  refine ⟨?_, ?_, ?_, ?_, ?_⟩ <;> intros <;> split_ifs <;> first | rfl | linarith

/-- C1 witness: on the `0.99`-risk store, the `≥0.9` band alone fires. -/
theorem trigger_interventions_mutually_exclusive_witness :
    0.9 ≤ calculate_risk_score db1 0 0 7 ∧
    trigger_interventions db1 0 0 =
      [InterventionAction.blockNewTasks, InterventionAction.alertManager "critical"] :=
  ⟨by rw [risk_db1_eval]; norm_num,
    (trigger_interventions_mutually_exclusive db1 0 0).1 (by rw [risk_db1_eval]; norm_num)⟩

/-- Helper: starting below the cap, the redistribution loop never returns
more than ten suggestions; `n` bounds the remaining loop passes. -/
theorem redistributeLoop_length_le (n : ℕ) : ∀ (db : WorkloadDB) (emps : List Employee)
    (auto : Bool) (acc : List TransferSuggestion), 10 - acc.length ≤ n →
    acc.length < 10 → (redistributeLoop db emps auto acc).length ≤ 10 := by
  induction n with
  | zero =>
    intro db emps auto acc hn hlt
    omega
  | succ n ih =>
    intro db emps auto acc hn hlt
    rw [redistributeLoop]
    unfold_let
    split
    · omega
    · split
      · omega
      · split
        · omega
        · split
          · simp only [List.length_append, List.length_cons, List.length_nil] at *
            omega
          · rename_i h10
            simp only [List.length_append, List.length_cons, List.length_nil, not_le] at h10
            apply ih
            · simp only [List.length_append, List.length_cons, List.length_nil]
              omega
            · simp only [List.length_append, List.length_cons, List.length_nil]
              omega

/-- C4: `redistribute_tasks` terminates for every store (it is a total
function, its loop recursing on the distance to the ten-suggestion cap) and
returns at most `10` transfer suggestions — in particular also when
`auto_assign` is false, so that recomputed workloads never change and every
pass finds the same transferable task. -/
theorem redistribute_tasks_at_most_ten (db : WorkloadDB) (team_id : ℕ)
    (auto_assign : Bool) :
    exceptLen (redistribute_tasks db team_id auto_assign) ≤ 10 := by
  unfold redistribute_tasks
  split
  · simp [exceptLen]
  · unfold_let
    split_ifs
    · simp [exceptLen]
    · simp only [exceptLen]
      exact redistributeLoop_length_le 10 _ _ _ [] (by simp) (by simp)

/-- Helper: the equity score of a workload list whose global scores are all
equal to the same constant is exactly `1`, for a zero constant through the
zero-mean branch and otherwise through a zero variance. -/
theorem equity_score_of_constant (ws : List Workload) (c : ℚ)
    (hne : ws ≠ []) (hc : ∀ w ∈ ws, w.global_score = c) :
    calculate_equity_score ws = 1 := by
  have hlen : (ws.length : ℚ) ≠ 0 :=
    Nat.cast_ne_zero.mpr (List.length_pos.mpr hne).ne'
  have hscores : ws.map (fun w => w.global_score) = List.replicate ws.length c := by
    rw [List.eq_replicate_iff]
    exact ⟨by simp, by simpa using hc⟩
  have hmean : (ws.map (fun w => w.global_score)).sum /
      (((ws.map (fun w => w.global_score)).length : ℕ) : ℚ) = c := by
    rw [hscores, List.sum_replicate, List.length_replicate, nsmul_eq_mul,
      mul_div_cancel_left₀ c hlen]
  have hvar : ((ws.map (fun w => w.global_score)).map (fun s => (s - c) ^ 2)).sum /
      (((ws.map (fun w => w.global_score)).length : ℕ) : ℚ) = 0 := by
    rw [hscores, List.map_replicate, sub_self]
    norm_num [List.sum_replicate]
  unfold calculate_equity_score
  rw [if_neg hne]
  unfold_let
  rw [hmean, hvar]
  split_ifs with h1 h2
  · rfl
  · rw [Rat.cast_zero, Real.sqrt_zero, zero_div, sub_zero]
    exact max_eq_right zero_le_one
  · rw [sub_zero]
    exact max_eq_right zero_le_one

/-- C7: when every member of a non-empty team has the same global workload
score, `calculate_team_equity` reports an equity score of exactly `1` — in
particular with all scores `0`, through the explicit zero-mean branch rather
than a division-by-zero error. -/
theorem team_equity_identical_scores (db : WorkloadDB) (tid : ℕ) (c : ℚ) (t : Team)
    (ht : db.teams.find? (fun x => decide (x.id = tid)) = some t)
    (hne : db.employees.filter (fun e => decide (e.team_id = some tid)) ≠ [])
    (hc : ∀ e ∈ db.employees.filter (fun e => decide (e.team_id = some tid)),
      (calculate_employee_workload db e.id).global_score = c) :
    equityOf (calculate_team_equity db tid) = some 1 := by
  unfold calculate_team_equity
  split
  · rename_i heq
    rw [ht] at heq
    cases heq
  · rename_i team heq
    unfold_let
    rw [if_neg hne]
    simp only [equityOf, Option.some.injEq]
    apply equity_score_of_constant _ c
    · simpa using hne
    · intro w hw
      rcases List.mem_map.mp hw with ⟨e, he, rfl⟩
      exact hc e he

/-- C7 witness: a two-member team with no tasks has all global scores `0`
and equity exactly `1`. -/
theorem team_equity_identical_scores_witness :
    (∀ e ∈ wdb7.employees.filter (fun e => decide (e.team_id = some 0)),
      (calculate_employee_workload wdb7 e.id).global_score = 0) ∧
    equityOf (calculate_team_equity wdb7 0) = some 1 :=
  ⟨by intro e _; norm_num [calculate_employee_workload, activeTasks, wdb7, alpha, beta],
    team_equity_identical_scores wdb7 0 0 { id := 0, name := "T" } (by rfl)
      (by decide)
      (by intro e _; norm_num [calculate_employee_workload, activeTasks, wdb7, alpha, beta])⟩

/-- C8: a team that exists but has no members yields an `ok` report with
equity score exactly `1` and a non-empty recommendation list, not an
error. -/
theorem team_equity_empty_team (db : WorkloadDB) (tid : ℕ) (t : Team)
    (ht : db.teams.find? (fun x => decide (x.id = tid)) = some t)
    (hemp : db.employees.filter (fun e => decide (e.team_id = some tid)) = []) :
    equityOf (calculate_team_equity db tid) = some 1 ∧
    ∃ rs, recsOf (calculate_team_equity db tid) = some rs ∧ rs ≠ [] := by
  have hok : calculate_team_equity db tid = Except.ok
      { team_id := tid, team_name := t.name, equity_score := 1.0,
        member_workloads := [], recommendations := ["No team members found"] } := by
    unfold calculate_team_equity
    split
    · rename_i heq
      rw [ht] at heq
      cases heq
    · rename_i team heq
      rw [ht] at heq
      cases heq
      unfold_let
      rw [if_pos hemp]
  refine ⟨?_, ["No team members found"], ?_, by simp⟩
  · rw [hok]
    norm_num [equityOf]
  · rw [hok]
    simp [recsOf]

/-- C8 witness: team `0` of `wdb8` exists, has no members, and reports
equity `1` with a non-empty recommendation list. -/
theorem team_equity_empty_team_witness :
    wdb8.employees.filter (fun e => decide (e.team_id = some 0)) = [] ∧
    (equityOf (calculate_team_equity wdb8 0) = some 1 ∧
      ∃ rs, recsOf (calculate_team_equity wdb8 0) = some rs ∧ rs ≠ []) :=
  ⟨by decide, team_equity_empty_team wdb8 0 { id := 0, name := "T" } (by rfl) (by decide)⟩

/-- C6 counterexample: an estimated effort of `0.0` hours is strictly below
`2`, yet `_normalize_effort` returns the no-estimate default `0.5`, not the
claimed `0.7 + (0/2)*0.3 = 0.7`. -/
theorem normalize_effort_zero_cex :
    normalize_effort (some 0) = 0.5 ∧ (0.7 + ((0 : ℚ) / 2) * 0.3) ≠ 0.5 :=
  ⟨by norm_num [normalize_effort], by norm_num⟩

/-- C6 (amended): no estimate gives `0.5`; an effort of exactly `0.0` is
falsy in Python and is likewise treated as no estimate, giving `0.5`; any
other effort strictly below `2` gives `0.7 + (effort/2)*0.3`; `2`–`4` gives
`1.0`; above `4` up to `8` gives `1.0 − ((effort−4)/4)*0.3`; above `8`
gives `0.4`. -/
theorem normalize_effort_piecewise (e : ℚ) :
    normalize_effort none = 0.5 ∧
    normalize_effort (some 0) = 0.5 ∧
    (e ≠ 0 → e < 2 → normalize_effort (some e) = 0.7 + (e / 2) * 0.3) ∧
    (2 ≤ e → e ≤ 4 → normalize_effort (some e) = 1) ∧
    (4 < e → e ≤ 8 → normalize_effort (some e) = 1 - ((e - 4) / 4) * 0.3) ∧
    (8 < e → normalize_effort (some e) = 0.4) := by
  refine ⟨by norm_num [normalize_effort], by norm_num [normalize_effort], ?_, ?_, ?_, ?_⟩
  · intro h0 h2
    simp only [normalize_effort]
    rw [if_neg h0, if_neg (by intro hc; linarith [hc.1]), if_pos (by linarith)]
    norm_num
  · intro h2 h4
    simp only [normalize_effort]
    rw [if_neg (by intro h0; rw [h0] at h2; linarith), if_pos (by constructor <;> linarith)]
    norm_num
  · intro h4 h8
    simp only [normalize_effort]
    rw [if_neg (by intro h0; rw [h0] at h4; linarith), if_neg (by intro hc; linarith [hc.2]),
      if_neg (by intro hc; linarith), if_pos (by linarith)]
    norm_num
  · intro h8
    simp only [normalize_effort]
    rw [if_neg (by intro h0; rw [h0] at h8; linarith), if_neg (by intro hc; linarith [hc.2]),
      if_neg (by intro hc; linarith), if_neg (by intro hc; linarith)]

/-- C6 witness: an effort of `1` hour lands in the sub-2-hour branch and
scores `0.85`. -/
theorem normalize_effort_piecewise_witness :
    (1 : ℚ) ≠ 0 ∧ (1 : ℚ) < 2 ∧
    normalize_effort (some 1) = 0.7 + ((1 : ℚ) / 2) * 0.3 :=
  ⟨by norm_num, by norm_num,
    (normalize_effort_piecewise 1).2.2.1 (by norm_num) (by norm_num)⟩

/-- C10 counterexample: `manager_recognition` with an empty note still sets
`recognized_by_manager` on a previously unrecognized achievement, storing
the empty note — non-emptiness is not enforced. -/
theorem manager_recognition_empty_note_cex :
    (∀ a ∈ achDb, a.recognized_by_manager = false) ∧
    (manager_recognition achDb 0 "").toOption.map
      (fun res => (res.2.recognized_by_manager, res.2.recognition_note)) =
      some (true, some "") :=
  ⟨by decide, by rfl⟩

/-- C10 (amended): on an existing achievement, `manager_recognition`
unconditionally sets `recognized_by_manager` and overwrites
`recognition_note` with the given note, empty or not; achievements are
created unrecognized with no note, and no service operation resets the flag,
so it changes from `false` to `true` at most once (re-calls only overwrite
the note). -/
theorem manager_recognition_sets_flag_and_note (db : List Achievement)
    (aid : ℕ) (note : String) (a : Achievement)
    (hfind : db.find? (fun x => decide (x.id = aid)) = some a) :
    (∃ res, manager_recognition db aid note = Except.ok res ∧
      res.2.recognized_by_manager = true ∧
      res.2.recognition_note = some note) ∧
    (∀ (db₂ : List Achievement) (nid emp : ℕ) (ty : AchievementType)
      (desc : String) (imp : ℚ) (rel : Option ℕ),
      (track_achievement db₂ nid emp ty desc imp rel).2.recognized_by_manager = false ∧
      (track_achievement db₂ nid emp ty desc imp rel).2.recognition_note = none) := by
  constructor
  · simp only [manager_recognition, hfind]
    exact ⟨_, rfl, rfl, rfl⟩
  · intro db₂ nid emp ty desc imp rel
    exact ⟨rfl, rfl⟩

/-- C10 witness: recognizing the stored achievement with note `"great"`. -/
theorem manager_recognition_sets_flag_and_note_witness :
    achDb.find? (fun x => decide (x.id = 0)) = some
      { id := 0, employee_id := 0, type := AchievementType.deliverable,
        description := "d", impact_score := 0.5, recognized_by_manager := false,
        recognition_note := none, related_task_id := none } ∧
    ((∃ res, manager_recognition achDb 0 "great" = Except.ok res ∧
      res.2.recognized_by_manager = true ∧
      res.2.recognition_note = some "great") ∧
    (∀ (db₂ : List Achievement) (nid emp : ℕ) (ty : AchievementType)
      (desc : String) (imp : ℚ) (rel : Option ℕ),
      (track_achievement db₂ nid emp ty desc imp rel).2.recognized_by_manager = false ∧
      (track_achievement db₂ nid emp ty desc imp rel).2.recognition_note = none)) :=
  ⟨by rfl, manager_recognition_sets_flag_and_note achDb 0 "great" _ (by rfl)⟩

/-- Helper: replacing the first match in `l ++ [x]` when nothing in `l`
matches rewrites exactly the appended row. -/
theorem replaceFirst_append_singleton {α : Type} (l : List α) (p : α → Bool) (x y : α)
    (h : ∀ z ∈ l, p z = false) (hx : p x = true) :
    replaceFirst (l ++ [x]) p y = l ++ [y] := by
  induction l with
  | nil => simp [replaceFirst, hx]
  | cons a as ih =>
    have ha : p a = false := h a (by simp)
    simp [replaceFirst, ha, ih (fun z hz => h z (by simp [hz]))]

/-- Helper: `find?` over `l ++ [x]` finds `x` when nothing in `l` matches. -/
theorem find?_append_singleton {α : Type} (l : List α) (p : α → Bool) (x : α)
    (h : ∀ z ∈ l, p z = false) (hx : p x = true) :
    (l ++ [x]).find? p = some x := by
  induction l with
  | nil =>
    rw [List.nil_append]
    exact List.find?_cons_of_pos _ hx
  | cons a as ih =>
    have ha : p a = false := h a (by simp)
    rw [List.cons_append, List.find?_cons_of_neg _ (by simp [ha])]
    exact ih (fun z hz => h z (by simp [hz]))

/-- Helper: `filter` over `l ++ [x]` keeps exactly `x` when nothing in `l`
matches. -/
theorem filter_append_singleton {α : Type} (l : List α) (p : α → Bool) (x : α)
    (h : ∀ z ∈ l, p z = false) (hx : p x = true) :
    (l ++ [x]).filter p = [x] := by
  rw [List.filter_append]
  have h0 : l.filter p = [] := List.filter_eq_nil_iff.mpr (by intro a ha; simp [h a ha])
  simp [h0, hx]

/-- Helper: the stored `risk_score` column is never read by
`calculate_risk_score`, so overwriting it on the appended row does not change
the computed risk. -/
theorem risk_ignores_risk_field (db0 : List BurnoutMetric) (r : BurnoutMetric)
    (v : Option ℚ) (emp : ℕ) (today : ℤ) (days : ℕ) :
    calculate_risk_score (db0 ++ [{ r with risk_score := v }]) emp today days =
      calculate_risk_score (db0 ++ [r]) emp today days := by
  have hsent : List.filterMap (fun r => r.sentiment_score) [{ r with risk_score := v }] =
      List.filterMap (fun r => r.sentiment_score) [r] := rfl
  have hmet : get_recent_metrics (db0 ++ [{ r with risk_score := v }]) emp today days =
      get_recent_metrics (db0 ++ [r]) emp today days := by
    unfold get_recent_metrics
    unfold_let
    rw [List.filter_append, List.filter_append]
    by_cases hp : metricInWindow emp (today - days) r = true
    · have hp2 : metricInWindow emp (today - days) { r with risk_score := v } = true := by
        simpa [metricInWindow] using hp
      simp [List.filter_cons, hp, hp2, hsent]
    · have hp' : metricInWindow emp (today - days) r = false := by simpa using hp
      have hp2 : metricInWindow emp (today - days) { r with risk_score := v } = false := by
        simpa [metricInWindow] using hp'
      simp [List.filter_cons, hp', hp2]
  unfold calculate_risk_score
  rw [hmet]

/-- Helper: a call of `update_daily_metric` on a store holding no row for
`(emp, d)` appends exactly one row carrying the given values, with
`risk_score` recomputed over the resulting store. -/
theorem update_insert (db : List BurnoutMetric) (emp : ℕ) (d today : ℤ)
    (h : ℚ) (b : ℕ) (s : Option ℚ)
    (hK : ∀ r ∈ db, metricKey emp d r = false) :
    ∃ m, (update_daily_metric db emp h b s (some d) today).1 = db ++ [m] ∧
      (update_daily_metric db emp h b s (some d) today).2 = m ∧
      metricKey emp d m = true ∧
      m.hours_worked = h ∧ m.breaks_taken = b ∧ m.sentiment_score = s ∧
      m.risk_score = some (calculate_risk_score (db ++ [m]) emp today 7) := by
  have find1 : db.find? (metricKey emp d) = none :=
    List.find?_eq_none.mpr (fun x hx => by simp [hK x hx])
  have hfr0 : metricKey emp d
      { employee_id := emp
        date := d
        hours_worked := h
        breaks_taken := b
        cognitive_load := 0.5
        social_interactions := 0
        task_completion_rate := 1.0
        sentiment_score := s
        risk_score := none } = true := by
    simp [metricKey]
  have hfrX : metricKey emp d
      { employee_id := emp
        date := d
        hours_worked := h
        breaks_taken := b
        cognitive_load := 0.5
        social_interactions := 0
        task_completion_rate := 1.0
        sentiment_score := s
        risk_score := some (calculate_risk_score (db ++ [freshMetric emp d h b s]) emp today 7) } =
      true := by
    simp [metricKey]
  have hstep : update_daily_metric db emp h b s (some d) today =
      (replaceFirst (db ++ [freshMetric emp d h b s]) (metricKey emp d)
        { employee_id := emp
          date := d
          hours_worked := h
          breaks_taken := b
          cognitive_load := 0.5
          social_interactions := 0
          task_completion_rate := 1.0
          sentiment_score := s
          risk_score := some (calculate_risk_score (db ++ [freshMetric emp d h b s]) emp today 7) },
        { employee_id := emp
          date := d
          hours_worked := h
          breaks_taken := b
          cognitive_load := 0.5
          social_interactions := 0
          task_completion_rate := 1.0
          sentiment_score := s
          risk_score := some (calculate_risk_score (db ++ [freshMetric emp d h b s]) emp today 7) }) := by
    simp only [update_daily_metric, Option.getD_some, find1, freshMetric]
  refine
    ⟨{ employee_id := emp
       date := d
       hours_worked := h
       breaks_taken := b
       cognitive_load := 0.5
       social_interactions := 0
       task_completion_rate := 1.0
       sentiment_score := s
       risk_score := some (calculate_risk_score (db ++ [freshMetric emp d h b s]) emp today 7) },
     ?_, ?_, ?_, ?_, ?_, ?_, ?_⟩
  · rw [hstep]
    exact replaceFirst_append_singleton db _ _ _ hK hfrX
  · rw [hstep]
  · exact hfrX
  · rfl
  · rfl
  · rfl
  · exact congrArg some
      (risk_ignores_risk_field db (freshMetric emp d h b s)
        (some (calculate_risk_score (db ++ [freshMetric emp d h b s]) emp today 7))
        emp today 7).symm

/-- Helper: a call of `update_daily_metric` on a store whose matching
`(emp, d)` row is the appended `x` overwrites that row in place with the
given values and a recomputed `risk_score`. -/
theorem update_existing (db : List BurnoutMetric) (emp : ℕ) (d today : ℤ)
    (h : ℚ) (b : ℕ) (v : ℚ) (x : BurnoutMetric)
    (hK : ∀ r ∈ db, metricKey emp d r = false)
    (hx : metricKey emp d x = true) :
    ∃ m, (update_daily_metric (db ++ [x]) emp h b (some v) (some d) today).1 = db ++ [m] ∧
      (update_daily_metric (db ++ [x]) emp h b (some v) (some d) today).2 = m ∧
      metricKey emp d m = true ∧
      m.hours_worked = h ∧ m.breaks_taken = b ∧ m.sentiment_score = some v ∧
      m.risk_score = some (calculate_risk_score (db ++ [m]) emp today 7) := by
  have find2 : (db ++ [x]).find? (metricKey emp d) = some x :=
    find?_append_singleton db _ x hK hx
  have hupd : metricKey emp d
      { x with
        hours_worked := h
        breaks_taken := b
        sentiment_score := some v } = true := by
    simpa [metricKey] using hx
  have hupdX : metricKey emp d
      { x with
        hours_worked := h
        breaks_taken := b
        sentiment_score := some v
        risk_score := some (calculate_risk_score
          (db ++ [{ x with
            hours_worked := h
            breaks_taken := b
            sentiment_score := some v }]) emp today 7) } = true := by
    simpa [metricKey] using hx
  have hrepl1 : replaceFirst (db ++ [x]) (metricKey emp d)
      { x with
        hours_worked := h
        breaks_taken := b
        sentiment_score := some v } =
      db ++ [{ x with
        hours_worked := h
        breaks_taken := b
        sentiment_score := some v }] :=
    replaceFirst_append_singleton db _ _ _ hK hx
  have hstep : update_daily_metric (db ++ [x]) emp h b (some v) (some d) today =
      (replaceFirst
        (db ++ [{ x with
          hours_worked := h
          breaks_taken := b
          sentiment_score := some v }])
        (metricKey emp d)
        { x with
          hours_worked := h
          breaks_taken := b
          sentiment_score := some v
          risk_score := some (calculate_risk_score
            (db ++ [{ x with
              hours_worked := h
              breaks_taken := b
              sentiment_score := some v }]) emp today 7) },
       { x with
         hours_worked := h
         breaks_taken := b
         sentiment_score := some v
         risk_score := some (calculate_risk_score
           (db ++ [{ x with
             hours_worked := h
             breaks_taken := b
             sentiment_score := some v }]) emp today 7) }) := by
    simp only [update_daily_metric, Option.getD_some, find2, hrepl1]
  refine ⟨{ x with
      hours_worked := h
      breaks_taken := b
      sentiment_score := some v
      risk_score := some (calculate_risk_score
        (db ++ [{ x with
          hours_worked := h
          breaks_taken := b
          sentiment_score := some v }]) emp today 7) }, ?_, ?_, ?_, ?_, ?_, ?_, ?_⟩
  · rw [hstep]
    exact replaceFirst_append_singleton db _ _ _ hK hupdX
  · rw [hstep]
  · exact hupdX
  · rfl
  · rfl
  · rfl
  · exact congrArg some
      (risk_ignores_risk_field db
        { x with
          hours_worked := h
          breaks_taken := b
          sentiment_score := some v }
        (some (calculate_risk_score
          (db ++ [{ x with
            hours_worked := h
            breaks_taken := b
            sentiment_score := some v }]) emp today 7))
        emp today 7).symm

/-- C5: calling `update_daily_metric` twice for the same employee and date
on a store holding no row for that pair leaves exactly one stored row for
the pair; that row carries the second call's hours, breaks and sentiment
(upsert overwrites, no duplicate insert), and its `risk_score` equals the
risk recomputed over the final store. -/
theorem update_daily_metric_upsert (db : List BurnoutMetric) (emp : ℕ)
    (d today : ℤ) (h₁ h₂ : ℚ) (b₁ b₂ : ℕ) (s₁ : Option ℚ) (v₂ : ℚ)
    (hfresh : ∀ r ∈ db, ¬(r.employee_id = emp ∧ r.date = d)) :
    ∃ m, (update_daily_metric (update_daily_metric db emp h₁ b₁ s₁ (some d) today).1
        emp h₂ b₂ (some v₂) (some d) today).1.filter (metricKey emp d) = [m] ∧
      (update_daily_metric (update_daily_metric db emp h₁ b₁ s₁ (some d) today).1
        emp h₂ b₂ (some v₂) (some d) today).2 = m ∧
      m.hours_worked = h₂ ∧ m.breaks_taken = b₂ ∧ m.sentiment_score = some v₂ ∧
      m.risk_score = some (calculate_risk_score
        ((update_daily_metric (update_daily_metric db emp h₁ b₁ s₁ (some d) today).1
          emp h₂ b₂ (some v₂) (some d) today).1) emp today 7) := by
  have hK : ∀ r ∈ db, metricKey emp d r = false := fun r hr => by
    simp [metricKey, hfresh r hr]
  obtain ⟨m₁, e1, e2, ek, he1, he2, he3, he4⟩ := update_insert db emp d today h₁ b₁ s₁ hK
  rw [e1]
  obtain ⟨m₂, f1, f2, fk, fh, fb, fs, fr⟩ := update_existing db emp d today h₂ b₂ v₂ m₁ hK ek
  rw [f1, f2]
  exact ⟨m₂, filter_append_singleton db _ m₂ hK fk, rfl, fh, fb, fs, fr⟩

/-- C5 witness: two calls on an initially empty store for employee `0` and
date `0` leave one row with the second call's values. -/
theorem update_daily_metric_upsert_witness :
    (∀ r ∈ ([] : List BurnoutMetric), ¬(r.employee_id = 0 ∧ r.date = 0)) ∧
    ∃ m, (update_daily_metric (update_daily_metric [] 0 5 1 none (some 0) 0).1
        0 6 2 (some 0.2) (some 0) 0).1.filter (metricKey 0 0) = [m] ∧
      (update_daily_metric (update_daily_metric [] 0 5 1 none (some 0) 0).1
        0 6 2 (some 0.2) (some 0) 0).2 = m ∧
      m.hours_worked = 6 ∧ m.breaks_taken = 2 ∧ m.sentiment_score = some 0.2 ∧
      m.risk_score = some (calculate_risk_score
        ((update_daily_metric (update_daily_metric [] 0 5 1 none (some 0) 0).1
          0 6 2 (some 0.2) (some 0) 0).1) 0 0 7) :=
  ⟨by simp, update_daily_metric_upsert [] 0 0 0 5 6 1 2 none 0.2 (by simp)⟩

end B2P
